import Mathlib

/-
Verification of the ACP validation / test-running pipeline.

Shallow embedding of the decision logic of:
  src/agents/validator/test_runner_agent.py   (TestRunnerAgent)
  src/agents/validator/app_runner_agent.py    (AppRunnerAgent)
  src/agents/validator/test_report_generator.py (TestReportGenerator)
  src/workflows/workflow_utils.py             (review_output)

Effects (subprocess waits, file writes, log calls) are made explicit as
fields of result records; regex matching is embedded at the granularity of
matched capture groups, with each alternation reflected as an enumeration.
-/

namespace ACP

/-! ### String helpers (Python `in`, `.upper()`, `.lower()`, `.strip()`, `.split(sep, 1)[-1]`) -/

/-- Python substring containment `n in h`, on character lists. -/
def substrIn (n : List Char) : List Char → Bool
| [] => n.isEmpty
| c :: t => n.isPrefixOf (c :: t) || substrIn n t

/-- Python `.upper()` on a character list. -/
def upperList (l : List Char) : List Char := l.map Char.toUpper

/-- Python `.lower()` on a character list. -/
def lowerList (l : List Char) : List Char := l.map Char.toLower

/-- The remainder after the first occurrence of `sep`, when `sep` occurs. -/
def afterFirst (sep : List Char) : List Char → Option (List Char)
| [] => none
| c :: t =>
  if sep.isPrefixOf (c :: t) then some ((c :: t).drop sep.length)
  else afterFirst sep t

/-- Python `s.split(sep, 1)[-1]`: remainder after the first `sep`, or `s` itself
when `sep` does not occur. -/
def splitLast (sep l : List Char) : List Char := (afterFirst sep l).getD l

/-- Python `.strip()` on a character list. -/
def stripList (l : List Char) : List Char :=
  ((l.dropWhile Char.isWhitespace).reverse.dropWhile Char.isWhitespace).reverse

/-! ### Data model

`shared.data_models` is imported by the validator agents but its module file
is not part of the tree; the two records below are modelled from the spec
data-model section and from every keyword-constructor call in
`test_runner_agent.py` / `test_report_generator.py`. -/

/-- Modelled from the spec: `TestResult` — test file, test name,
status in the canonical vocabulary (held as a plain string, since parsers
write arbitrary strings into it), duration (ms), optional error message,
framework, optional suite name. -/
structure TestResult where
  test_file : String
  test_name : String
  status : String
  duration_ms : Rat
  error_message : Option String
  test_framework : String
  test_suite : Option String := none
deriving DecidableEq, Repr

/-- Modelled from the spec: `TestRunResult` — success flag, totals,
ordered sequence of `TestResult`, execution time, command, raw output log,
framework, project path, session id. -/
structure TestRunResult where
  success : Bool
  total_tests : Nat
  passed : Nat
  failed : Nat
  skipped : Nat
  test_results : List TestResult
  execution_time : Rat
  test_command : String
  output_log : String
  test_framework : String
  project_path : String
  session_id : Option String
deriving DecidableEq, Repr

/-- The canonical status vocabulary {passed, failed, skipped, unknown}. -/
def canonicalStatus (s : String) : Bool :=
  s == "passed" || s == "failed" || s == "skipped" || s == "unknown"

/-! ### `TestRunnerAgent.run_tests` (test_runner_agent.py lines 43-123)

The try-block detects the framework, executes the command and parses the
results; any exception lands in the zeroed fallback result.  The embedding
takes the try-block outcome as an `Except`: `.ok results` carries the parsed
rows together with the framework, joined command and captured output that
feed the success-path constructor, `.error e` is `str(e)` of the exception. -/

def runTests (o : Except String (List TestResult))
    (fw : String) (cmd : List String) (outLog : String)
    (path : String) (sid : Option String) (elapsed : Rat) : TestRunResult :=
  match o with
  | .ok results =>
    let total := results.length
    let passedN := results.countP (fun t => t.status == "passed")
    let failedN := results.countP (fun t => t.status == "failed")
    let skippedN := results.countP (fun t => t.status == "skipped")
    { success := decide (failedN = 0 ∧ 0 < total)
      total_tests := total
      passed := passedN
      failed := failedN
      skipped := skippedN
      test_results := results
      execution_time := elapsed
      test_command := String.intercalate " " cmd
      output_log := outLog
      test_framework := fw
      project_path := path
      session_id := sid }
  | .error e =>
    { success := false
      total_tests := 0
      passed := 0
      failed := 0
      skipped := 0
      test_results := []
      execution_time := elapsed
      test_command := ""
      output_log := e
      test_framework := "unknown"
      project_path := path
      session_id := sid }

/-! ### `AppRunnerAgent._check_health` (app_runner_agent.py lines 293-302)

The bounded GET either yields a response status (`some status`) or raises
(connection refused, timeout, missing aiohttp, ...), modelled as `none`;
every raise is swallowed by the bare `except` and resolves to `false`.
The success test in the source is `resp.status == 200`. -/

def checkHealth (resp : Option Nat) : Bool :=
  match resp with
  | some status => status == 200
  | none => false

/-! ### `review_output` (workflow_utils.py lines 37-56)

The reviewer call either returns a response text (`.ok resp`) or raises
(`.error e` carrying `str(e)`). -/

def reviewOutput (call : Except String String) : Bool × String :=
  match call with
  | .ok resp =>
    let up := upperList resp.toList
    if substrIn ("APPROVED".toList) up then
      (true, "Approved by reviewer")
    else if substrIn ("REVISION NEEDED".toList) up then
      (false, String.mk (stripList (splitLast ("REVISION NEEDED:".toList) resp.toList)))
    else
      (false, "Review unclear: " ++ resp)
  | .error e => (true, "Auto-approved due to review error: " ++ e)

/-! ### Pytest console parser `_parse_pytest_output` (lines 328-364)

The line regex is `(.*?)::(.*?) (PASSED|FAILED|SKIPPED|XFAIL|XPASS|ERROR)`;
a matched line carries the two lazy groups and the status token (the
alternation is reflected as an enumeration), plus the optional seconds group
of the time regex. -/

inductive PytestTok
| passedT | failedT | skippedT | xfailT | xpassT | errorT
deriving DecidableEq, Repr

/-- The `status_map` dictionary of `_parse_pytest_output`. -/
def pytestStatusMap : PytestTok → String
| .passedT => "passed"
| .failedT => "failed"
| .skippedT => "skipped"
| .xfailT => "skipped"
| .xpassT => "passed"
| .errorT => "failed"

inductive PytestLine
| matched (file nm : String) (tok : PytestTok) (secs : Option Rat)
| unmatched
deriving DecidableEq, Repr

def parsePytestOutput (lines : List PytestLine) : List TestResult :=
  lines.filterMap (fun l =>
    match l with
    | .unmatched => none
    | .matched file nm tok secs =>
      some { test_file := file
             test_name := nm
             status := pytestStatusMap tok
             duration_ms := match secs with | some s => s * 1000 | none => 0
             error_message := none
             test_framework := "pytest" })

/-! ### Pytest JUnit-XML parser, inside `_parse_pytest_results` (lines 272-326)

A `<testcase>` element carries classname, name, the `time` attribute, and
optional failure / error / skipped children (each with its `message`
attribute, defaulted to the empty string by `.get('message', '')`).  The
`time` attribute is fed to `float(testcase.get('time', 0))`: `.ok q` is the
numeric result (an absent attribute gives `.ok 0`), `.error ()` a
non-numeric attribute whose conversion raises ValueError mid-loop. -/

instance {ε α : Type} [DecidableEq ε] [DecidableEq α] : DecidableEq (Except ε α) := fun a b =>
  match a, b with
  | .ok x, .ok y => decidable_of_iff (x = y) (by simp)
  | .ok _, .error _ => isFalse (by simp)
  | .error _, .ok _ => isFalse (by simp)
  | .error x, .error y => decidable_of_iff (x = y) (by simp)

structure XmlTestcase where
  classname : String
  name : String
  timeAttr : Except Unit Rat
  failure : Option String
  errorTag : Option String
  skippedTag : Option String
deriving DecidableEq, Repr

/-- One iteration of the extraction loop over `<testcase>` elements:
`none` means `float(...)` raised while handling this element (the row is not
appended and the exception aborts the loop into the bare `except`). -/
def pytestXmlRow (tc : XmlTestcase) : Option TestResult :=
  match tc.timeAttr with
  | .error _ => none
  | .ok time =>
    let statusMsg : String × Option String :=
      match tc.failure with
      | some m => ("failed", some m)
      | none =>
        match tc.errorTag with
        | some m => ("failed", some m)
        | none =>
          match tc.skippedTag with
          | some m => ("skipped", some m)
          | none => ("passed", none)
    some { test_file := if tc.classname != "" then tc.classname.replace "." "/" ++ ".py" else "unknown"
           test_name := tc.name
           status := statusMsg.1
           duration_ms := time * 1000
           error_message := statusMsg.2
           test_framework := "pytest"
           test_suite := some tc.classname }

/-- The extraction loop: rows appended so far plus a flag telling whether the
loop ran to completion (`false` = a ValueError aborted it, so `unlink` is
never reached and rows appended before the raise are kept). -/
def pytestXmlLoop : List XmlTestcase → List TestResult × Bool
| [] => ([], true)
| tc :: rest =>
  match pytestXmlRow tc with
  | none => ([], false)
  | some r =>
    let tail := pytestXmlLoop rest
    (r :: tail.1, tail.2)

/-- The rows the XML extraction loop emits (partial when the loop aborted). -/
def parsePytestXml (cases : List XmlTestcase) : List TestResult :=
  (pytestXmlLoop cases).1

/-- Outcome of `ET.parse` on `test_results.xml`: either the parsed list of
`<testcase>` elements, or a parse exception. -/
inductive XmlParse
| parsed (cases : List XmlTestcase)
| malformed
deriving DecidableEq, Repr

/-- Observable state produced by `_parse_pytest_results`: the rows, whether
`test_results.xml` was removed (`xml_path.unlink()`), and the log entries the
function emitted (the source contains no logging call; the `except` branch is
a bare `pass`, so this list is built empty on every path). -/
structure PytestParseState where
  results : List TestResult
  artifactRemoved : Bool
  logs : List String
deriving DecidableEq, Repr

/-- `_parse_pytest_results(project_path, output_log)`: `artifact` is `none`
when `test_results.xml` does not exist, otherwise the `ET.parse` outcome;
`console` is the transcript fed to the fallback parser.  The bare `except`
spans both `ET.parse` and the extraction loop: a ValueError raised mid-loop
keeps the rows appended before it and skips `unlink`; the console fallback
(`if not test_results`) then runs only when no row was ever appended. -/
def parsePytestResults (artifact : Option XmlParse) (console : List PytestLine) :
    PytestParseState :=
  match artifact with
  | none => ⟨parsePytestOutput console, false, []⟩
  | some .malformed => ⟨parsePytestOutput console, false, []⟩
  | some (.parsed cases) =>
    let loop := pytestXmlLoop cases
    ⟨if loop.1.isEmpty then parsePytestOutput console else loop.1, loop.2, []⟩

/-! ### Jest parser `_parse_jest_results` (lines 366-396)

The JSON artifact structure: `testResults` is a list of file records, each
with `name` and `assertionResults`; each assertion has `title`, `status`,
`duration`, `failureMessages`, `ancestorTitles`.  Every field is optional
(`dict.get`).  Note `assertion.get('failureMessages', [None])[0]`: when the
key is absent the default `[None]` yields `None`; when it is present with an
empty list, `[0]` raises IndexError, which aborts the whole loop into the
outer bare `except` (rows appended so far are kept, the artifact is not
removed).  Same for `ancestorTitles`. -/

structure JestAssertion where
  title : Option String
  status : Option String
  duration : Option Rat
  failureMessages : Option (List String)
  ancestorTitles : Option (List String)
deriving DecidableEq, Repr

structure JestFile where
  name : Option String
  assertionResults : Option (List JestAssertion)
deriving DecidableEq, Repr

structure JestData where
  testResults : Option (List JestFile)
deriving DecidableEq, Repr

/-- `o.get(key, [None])[0]`: `some v` is the computed value, `none` is the
IndexError raised on a present-but-empty list. -/
def firstOrDefault (o : Option (List String)) : Option (Option String) :=
  match o with
  | none => some none
  | some [] => none
  | some (x :: _) => some (some x)

/-- One loop body iteration: `none` means an IndexError was raised while
building this row (the row is not appended and the loop aborts). -/
def jestAssertionRow (file : String) (a : JestAssertion) : Option TestResult :=
  match firstOrDefault a.failureMessages, firstOrDefault a.ancestorTitles with
  | some em, some ts =>
    some { test_file := file
           test_name := a.title.getD "unknown"
           status := a.status.getD "unknown"
           duration_ms := a.duration.getD 0
           error_message := em
           test_framework := "jest"
           test_suite := ts }
  | _, _ => none

/-- Inner loop over the assertions of one file; the Bool is `true` when the
loop ran to completion (no IndexError). -/
def jestLoopAssertions (file : String) : List JestAssertion → List TestResult × Bool
| [] => ([], true)
| a :: rest =>
  match jestAssertionRow file a with
  | none => ([], false)
  | some r =>
    let tail := jestLoopAssertions file rest
    (r :: tail.1, tail.2)

/-- Outer loop over the `testResults` file records. -/
def jestLoopFiles : List JestFile → List TestResult × Bool
| [] => ([], true)
| f :: rest =>
  let file := f.name.getD "unknown"
  let inner := jestLoopAssertions file (f.assertionResults.getD [])
  if inner.2 then
    let tail := jestLoopFiles rest
    (inner.1 ++ tail.1, tail.2)
  else (inner.1, false)

/-- `_parse_jest_results(project_path)`: `artifact` is `none` when
`test_results.json` does not exist, `.error` a `json.load` failure; the Bool
records whether the artifact was removed (`json_path.unlink()` runs only when
the loop completed without an exception). -/
def parseJestResults (artifact : Option (Except Unit JestData)) :
    List TestResult × Bool :=
  match artifact with
  | none => ([], false)
  | some (.error _) => ([], false)
  | some (.ok data) => jestLoopFiles (data.testResults.getD [])

/-! ### Unittest parser `_parse_unittest_results` (lines 398-430)

Line regex `(test_\w+) \((.*?)\) \.\.\. (ok|FAIL|ERROR|skipped)`. -/

inductive UnitTok
| okT | failT | uerrorT | uskippedT
deriving DecidableEq, Repr

def unittestStatusMap : UnitTok → String
| .okT => "passed"
| .failT => "failed"
| .uerrorT => "failed"
| .uskippedT => "skipped"

inductive UnitLine
| matched (nm cls : String) (tok : UnitTok)
| unmatched
deriving DecidableEq, Repr

def parseUnittestResults (lines : List UnitLine) : List TestResult :=
  lines.filterMap (fun l =>
    match l with
    | .unmatched => none
    | .matched nm cls tok =>
      some { test_file := if cls.toList.contains '.' then cls.replace "." "/" ++ ".py" else "unknown"
             test_name := nm
             status := unittestStatusMap tok
             duration_ms := 0
             error_message := none
             test_framework := "unittest"
             test_suite := some cls })

/-! ### Mocha parser `_parse_mocha_results` (lines 432-472)

Per line: the stripped text (drives the suite-tracking branch), the optional
pass-pattern groups (name, milliseconds) and the optional fail-pattern
group. -/

structure MochaLine where
  stripped : String
  passGroups : Option (String × Rat)
  failGroup : Option String
deriving DecidableEq, Repr

/-- Condition on `line.strip()` that updates `current_suite`: non-empty, does
not start with the check mark, first character not a digit. -/
def mochaSuiteLine (s : String) : Bool :=
  match s.toList with
  | [] => false
  | c :: _ => !(c == '✓') && !c.isDigit

def mochaPassRow (suite : Option String) (nm : String) (ms : Rat) : TestResult :=
  { test_file := "unknown"
    test_name := nm
    status := "passed"
    duration_ms := ms
    error_message := none
    test_framework := "mocha"
    test_suite := suite }

def mochaFailRow (suite : Option String) (nm : String) : TestResult :=
  { test_file := "unknown"
    test_name := nm
    status := "failed"
    duration_ms := 0
    error_message := some "Test failed"
    test_framework := "mocha"
    test_suite := suite }

def mochaLoop (suite : Option String) : List MochaLine → List TestResult
| [] => []
| l :: rest =>
  let suiteNext := if mochaSuiteLine l.stripped then some l.stripped else suite
  ((match l.passGroups with
    | some (nm, ms) => [mochaPassRow suiteNext nm ms]
    | none => []) ++
   (match l.failGroup with
    | some nm => [mochaFailRow suiteNext nm]
    | none => [])) ++ mochaLoop suiteNext rest

def parseMochaResults (lines : List MochaLine) : List TestResult :=
  mochaLoop none lines

/-! ### Go parser `_parse_go_test_results` (lines 474-517)

Lines are blank (skipped), JSON events (`Action`, `Test`, `Package`,
`Elapsed` all via `dict.get`), or plain text matched against
`(PASS|FAIL):\s+(\S+)\s+((seconds))` or unmatched. -/

inductive GoLine
| blank
| jsonEvent (action : String) (test : Option String) (pkg : Option String) (elapsed : Option Rat)
| textMatch (isPass : Bool) (nm : String) (secs : Rat)
| textUnmatched
deriving DecidableEq, Repr

def goLineRows (l : GoLine) : List TestResult :=
  match l with
  | .blank => []
  | .textUnmatched => []
  | .jsonEvent action test pkg elapsed =>
    if action == "pass" || action == "fail" then
      let nm := test.getD "unknown"
      if nm != "unknown" then
        [{ test_file := pkg.getD "unknown"
           test_name := nm
           status := if action == "pass" then "passed" else "failed"
           duration_ms := (elapsed.getD 0) * 1000
           error_message := none
           test_framework := "go"
           test_suite := pkg }]
      else []
    else []
  | .textMatch isPass nm secs =>
    [{ test_file := "unknown"
       test_name := nm
       status := if isPass then "passed" else "failed"
       duration_ms := secs * 1000
       error_message := none
       test_framework := "go" }]

def parseGoTestResults (lines : List GoLine) : List TestResult :=
  (lines.map goLineRows).flatten

/-! ### Cargo parser `_parse_cargo_test_results` (lines 519-540)

Line regex `test (\S+) \.\.\. (ok|FAILED|ignored)`. -/

inductive CargoTok
| cokT | cfailedT | cignoredT
deriving DecidableEq, Repr

def cargoStatusMap : CargoTok → String
| .cokT => "passed"
| .cfailedT => "failed"
| .cignoredT => "skipped"

inductive CargoLine
| matched (nm : String) (tok : CargoTok)
| unmatched
deriving DecidableEq, Repr

def parseCargoTestResults (lines : List CargoLine) : List TestResult :=
  lines.filterMap (fun l =>
    match l with
    | .unmatched => none
    | .matched nm tok =>
      some { test_file := "unknown"
             test_name := nm
             status := cargoStatusMap tok
             duration_ms := 0
             error_message := none
             test_framework := "cargo" })

/-! ### Generic parser `_parse_generic_results` (lines 542-568)

Three patterns are scanned in order over the whole output; each match yields
(name, token) where the token alternation is an enumeration per pattern.
Status is `'passed' if 'pass' in token.lower() else 'failed'`. -/

inductive GenTok1
| passedL | passedU | successL | successU
deriving DecidableEq, Repr

def genTok1Text : GenTok1 → String
| .passedL => "passed"
| .passedU => "PASSED"
| .successL => "success"
| .successU => "SUCCESS"

inductive GenTok2
| failedL | failedU | failureL | failureU
deriving DecidableEq, Repr

def genTok2Text : GenTok2 → String
| .failedL => "failed"
| .failedU => "FAILED"
| .failureL => "failure"
| .failureU => "FAILURE"

inductive GenTok3
| passT3 | failT3
deriving DecidableEq, Repr

def genTok3Text : GenTok3 → String
| .passT3 => "PASS"
| .failT3 => "FAIL"

def genericStatus (tok : String) : String :=
  if substrIn ("pass".toList) (lowerList tok.toList) then "passed" else "failed"

def genericRow (nm tok : String) : TestResult :=
  { test_file := "unknown"
    test_name := nm
    status := genericStatus tok
    duration_ms := 0
    error_message := none
    test_framework := "unknown" }

structure GenericMatches where
  p1 : List (String × GenTok1)
  p2 : List (String × GenTok2)
  p3 : List (String × GenTok3)
deriving DecidableEq, Repr

def parseGenericResults (m : GenericMatches) : List TestResult :=
  m.p1.map (fun g => genericRow g.1 (genTok1Text g.2)) ++
  m.p2.map (fun g => genericRow g.1 (genTok2Text g.2)) ++
  m.p3.map (fun g => genericRow g.1 (genTok3Text g.2))

/-! ### Dispatcher `_parse_test_results` (lines 256-270)

The elif chain branches on the framework string; here the input constructor
carries both the framework tag and that framework's transcript/artifact. -/

inductive ParseInput
| pytestI (artifact : Option XmlParse) (console : List PytestLine)
| jestI (artifact : Option (Except Unit JestData))
| unittestI (lines : List UnitLine)
| mochaI (lines : List MochaLine)
| goI (lines : List GoLine)
| cargoI (lines : List CargoLine)
| genericI (m : GenericMatches)
deriving DecidableEq, Repr

def parseTestResults : ParseInput → List TestResult
| .pytestI artifact console => (parsePytestResults artifact console).results
| .jestI artifact => (parseJestResults artifact).1
| .unittestI lines => parseUnittestResults lines
| .mochaI lines => parseMochaResults lines
| .goI lines => parseGoTestResults lines
| .cargoI lines => parseCargoTestResults lines
| .genericI m => parseGenericResults m

/-! ### `AppRunnerAgent` project detection (app_runner_agent.py lines 104-130)

The project directory is modelled as the list of file names present at its
top level; the detector dictionary iterates in insertion order. -/

def detectNodeProject (files : List String) : Bool :=
  ["package.json", "index.js", "app.js", "server.js"].any files.contains

def detectPythonProject (files : List String) : Bool :=
  ["requirements.txt", "setup.py", "pyproject.toml", "main.py", "app.py"].any files.contains

def detectRustProject (files : List String) : Bool :=
  files.contains "Cargo.toml"

def detectGoProject (files : List String) : Bool :=
  ["go.mod", "main.go"].any files.contains

def detectProjectType (files : List String) : String :=
  if detectNodeProject files then "node"
  else if detectPythonProject files then "python"
  else if detectRustProject files then "rust"
  else if detectGoProject files then "go"
  else "unknown"

/-! ### `AppRunnerAgent._install_dependencies` (lines 131-170)

What happens before any subprocess is spawned: unknown type returns the
no-command message; a Python project without `requirements.txt` returns the
skip message; otherwise the canonical command is executed. -/

def installCommands : List (String × List String) :=
  [("node", ["npm", "install"]),
   ("python", ["pip", "install", "-r", "requirements.txt"]),
   ("rust", ["cargo", "build"]),
   ("go", ["go", "mod", "download"])]

inductive InstallAction
| noCommand (msg : String)
| skippedStep (msg : String)
| runCmd (cmd : List String)
deriving DecidableEq, Repr

def installDependencies (ptype : String) (files : List String) : InstallAction :=
  match installCommands.lookup ptype with
  | none => .noCommand ("No install command for project type: " ++ ptype)
  | some cmd =>
    if ptype == "python" && !(files.contains "requirements.txt") then
      .skippedStep "No requirements.txt found, skipping dependency installation"
    else
      .runCmd cmd

/-! ### `AppRunnerAgent._run_application` (lines 172-226)

The launched process behaviour is abstracted: whether launching raised,
whether the process had already exited after the 2-second grace sleep (and
the stdout/stderr captured then), the port `_detect_listening_port` would
report, and whether `communicate()` finished inside the 5-second collection
window (with its output) or timed out. -/

structure ProcBehavior where
  launchError : Option String
  exitedDuringGrace : Bool
  graceStdout : String
  graceStderr : String
  portFound : Option Nat
  collected : Option (String × String)
deriving DecidableEq, Repr

/-- Observable outcome of `_run_application`: the returned
(output, error, port) triple plus two effect flags — whether
`_detect_listening_port` was invoked, and whether the process was
terminated (`process.terminate()` + `wait()`) before returning. -/
structure RunOutcome where
  output : String
  errorLog : Option String
  port : Option Nat
  portProbed : Bool
  terminated : Bool
deriving DecidableEq, Repr

def runApplication (ptype : String) (b : ProcBehavior) : RunOutcome :=
  if !(["node", "python", "rust", "go"].contains ptype) then
    ⟨"", some ("No run command for project type: " ++ ptype), none, false, false⟩
  else
    match b.launchError with
    | some e => ⟨"", some ("Failed to run application: " ++ e), none, false, false⟩
    | none =>
      if b.exitedDuringGrace then
        ⟨b.graceStdout, some b.graceStderr, none, false, false⟩
      else
        match b.collected with
        | some oe => ⟨oe.1, some oe.2, b.portFound, true, false⟩
        | none => ⟨"Application started successfully", none, b.portFound, true, true⟩

/-- The success flag computed by `validate_application` (line 82):
`success=bool(port) or (error_log is None)`. -/
def validationSuccess (port : Option Nat) (errorLog : Option String) : Bool :=
  port.isSome || errorLog.isNone

/-! ### `TestReportGenerator` rolling CSV files (test_report_generator.py
lines 283-385)

The report directory is modelled as the contents of the two rolling CSV
files (`none` = file does not exist) plus, for the summary, the sorted list
of `test_run_*.json` read outcomes supplied to one call. -/

structure SummaryData where
  session_id : String
  timestamp : String
  success : Bool
  total_tests : Nat
  passed : Nat
  failed : Nat
  skipped : Nat
  execution_time : Rat
  test_framework : String
  test_command : String
deriving DecidableEq, Repr

inductive SummaryRow
| header
| dataRow (sd : SummaryData) (successRate : Rat)
deriving DecidableEq, Repr

inductive HistoryRow
| header
| dataRow (now : String) (r : TestRunResult) (successRate : Rat)
deriving DecidableEq, Repr

structure ReportDir where
  summaryFile : Option (List SummaryRow)
  historyFile : Option (List HistoryRow)
deriving DecidableEq, Repr

def summaryRow (sd : SummaryData) : SummaryRow :=
  .dataRow sd (if 0 < sd.total_tests then (sd.passed : Rat) * 100 / (sd.total_tests : Rat) else 0)

def summaryRows (reports : List (Except Unit SummaryData)) : List SummaryRow :=
  reports.filterMap (fun r =>
    match r with
    | .ok sd => some (summaryRow sd)
    | .error _ => none)

/-- `generate_summary_csv`: `open(summary_path, 'w')` truncates the file,
writes the header row, then one row per readable JSON report (unreadable
ones are skipped by the `except: continue`). -/
def generateSummaryCsv (fs : ReportDir) (reports : List (Except Unit SummaryData)) :
    ReportDir :=
  { fs with summaryFile := some (SummaryRow.header :: summaryRows reports) }

def historyDataRow (now : String) (r : TestRunResult) : HistoryRow :=
  .dataRow now r (if 0 < r.total_tests then (r.passed : Rat) * 100 / (r.total_tests : Rat) else 0)

/-- `append_to_history_csv`: `open(history_path, 'a')`; the header row is
written only when the file did not already exist, then the data row is
appended. -/
def appendToHistoryCsv (fs : ReportDir) (now : String) (r : TestRunResult) :
    ReportDir :=
  let prior := match fs.historyFile with
               | none => [HistoryRow.header]
               | some rows => rows
  { fs with historyFile := some (prior ++ [historyDataRow now r]) }

/-! ### Helper lemmas -/

theorem canonPassed : canonicalStatus "passed" = true := rfl

theorem canonFailed : canonicalStatus "failed" = true := rfl

theorem canonSkipped : canonicalStatus "skipped" = true := rfl

theorem pytestStatusMap_canonical (t : PytestTok) :
    canonicalStatus (pytestStatusMap t) = true := by
  cases t <;> rfl

theorem unittestStatusMap_canonical (t : UnitTok) :
    canonicalStatus (unittestStatusMap t) = true := by
  cases t <;> rfl

theorem cargoStatusMap_canonical (t : CargoTok) :
    canonicalStatus (cargoStatusMap t) = true := by
  cases t <;> rfl

theorem genericStatus_canonical (tok : String) :
    canonicalStatus (genericStatus tok) = true := by
  unfold genericStatus
  split
  · exact canonPassed
  · exact canonFailed

theorem pytestXmlRow_canonical (tc : XmlTestcase) :
    (pytestXmlRow tc).all (fun r => canonicalStatus r.status) = true := by
  unfold pytestXmlRow
  rcases tc.timeAttr with u | q
  · rfl
  · rcases tc.failure with _ | m
    · rcases tc.errorTag with _ | m
      · rcases tc.skippedTag with _ | m
        · exact canonPassed
        · exact canonSkipped
      · exact canonFailed
    · exact canonFailed

theorem allCanonical_pytestXmlLoop (cases' : List XmlTestcase) :
    (pytestXmlLoop cases').1.all (fun r => canonicalStatus r.status) = true := by
  induction cases' with
  | nil => rfl
  | cons tc rest ih =>
    cases hr : pytestXmlRow tc with
    | none => simp [pytestXmlLoop, hr]
    | some r =>
      have hc : canonicalStatus r.status = true := by
        have h2 := pytestXmlRow_canonical tc
        rw [hr] at h2
        simpa using h2
      simp [pytestXmlLoop, hr, List.all_cons, hc, ih]

theorem allCanonical_parsePytestXml (cases' : List XmlTestcase) :
    (parsePytestXml cases').all (fun r => canonicalStatus r.status) = true :=
  allCanonical_pytestXmlLoop cases'

theorem allCanonical_parsePytestOutput (ls : List PytestLine) :
    (parsePytestOutput ls).all (fun r => canonicalStatus r.status) = true := by
  rw [List.all_eq_true]
  intro r hr
  rw [parsePytestOutput, List.mem_filterMap] at hr
  obtain ⟨l, _, hl⟩ := hr
  cases l with
  | unmatched => exact absurd hl (by simp)
  | matched file nm tok secs =>
    simp only [Option.some.injEq] at hl
    subst hl
    exact pytestStatusMap_canonical tok

theorem allCanonical_parsePytestResults (artifact : Option XmlParse)
    (console : List PytestLine) :
    (parsePytestResults artifact console).results.all
      (fun r => canonicalStatus r.status) = true := by
  rcases artifact with _ | x
  · exact allCanonical_parsePytestOutput console
  · cases x with
    | malformed => exact allCanonical_parsePytestOutput console
    | parsed cases' =>
      by_cases h : (pytestXmlLoop cases').1.isEmpty = true
      · simpa [parsePytestResults, h] using allCanonical_parsePytestOutput console
      · simpa [parsePytestResults, h] using allCanonical_pytestXmlLoop cases'

theorem allCanonical_parseUnittestResults (ls : List UnitLine) :
    (parseUnittestResults ls).all (fun r => canonicalStatus r.status) = true := by
  rw [List.all_eq_true]
  intro r hr
  rw [parseUnittestResults, List.mem_filterMap] at hr
  obtain ⟨l, _, hl⟩ := hr
  cases l with
  | unmatched => exact absurd hl (by simp)
  | matched nm cls tok =>
    simp only [Option.some.injEq] at hl
    subst hl
    exact unittestStatusMap_canonical tok

theorem allCanonical_mochaLoop (ls : List MochaLine) (suite : Option String) :
    (mochaLoop suite ls).all (fun r => canonicalStatus r.status) = true := by
  induction ls generalizing suite with
  | nil => rfl
  | cons l t ih =>
    rcases hp : l.passGroups with _ | g <;>
      rcases hf : l.failGroup with _ | nm <;>
      simp [mochaLoop, hp, hf, mochaPassRow, mochaFailRow, canonPassed, canonFailed, ih]

theorem allCanonical_parseMochaResults (ls : List MochaLine) :
    (parseMochaResults ls).all (fun r => canonicalStatus r.status) = true :=
  allCanonical_mochaLoop ls none

theorem allCanonical_goLineRows (l : GoLine) :
    (goLineRows l).all (fun r => canonicalStatus r.status) = true := by
  cases l with
  | blank => rfl
  | textUnmatched => rfl
  | jsonEvent a t p e =>
    simp only [goLineRows]
    by_cases h1 : (a == "pass" || a == "fail") = true
    · by_cases h2 : (t.getD "unknown" != "unknown") = true
      · by_cases h3 : (a == "pass") = true
        · simp [h1, h2, h3, canonPassed]
        · simp [h1, h2, h3, canonFailed]
      · simp [h1, h2]
    · simp [h1]
  | textMatch isPass nm secs =>
    cases isPass <;> simp [goLineRows, canonPassed, canonFailed]

theorem allCanonical_parseGoTestResults (ls : List GoLine) :
    (parseGoTestResults ls).all (fun r => canonicalStatus r.status) = true := by
  rw [List.all_eq_true]
  intro r hr
  rw [parseGoTestResults, List.mem_flatten] at hr
  obtain ⟨rows, hrows, hr⟩ := hr
  rw [List.mem_map] at hrows
  obtain ⟨l, _, rfl⟩ := hrows
  have := allCanonical_goLineRows l
  rw [List.all_eq_true] at this
  exact this r hr

theorem allCanonical_parseCargoTestResults (ls : List CargoLine) :
    (parseCargoTestResults ls).all (fun r => canonicalStatus r.status) = true := by
  rw [List.all_eq_true]
  intro r hr
  rw [parseCargoTestResults, List.mem_filterMap] at hr
  obtain ⟨l, _, hl⟩ := hr
  cases l with
  | unmatched => exact absurd hl (by simp)
  | matched nm tok =>
    simp only [Option.some.injEq] at hl
    subst hl
    exact cargoStatusMap_canonical tok

theorem allCanonical_parseGenericResults (m : GenericMatches) :
    (parseGenericResults m).all (fun r => canonicalStatus r.status) = true := by
  rw [List.all_eq_true]
  intro r hr
  rw [parseGenericResults] at hr
  simp only [List.mem_append, List.mem_map] at hr
  rcases hr with (⟨g, _, rfl⟩ | ⟨g, _, rfl⟩) | ⟨g, _, rfl⟩ <;>
    exact genericStatus_canonical _

/-! ### Concrete sample inputs used by counterexamples and witnesses -/

/-- A jest artifact whose single assertion reports the (real-world) jest
status token `pending`. -/
def jestPendingInput : Option (Except Unit JestData) :=
  some (.ok ⟨some [⟨some "math.test.js",
    some [⟨some "adds numbers", some "pending", some 3,
           some ["assertion text"], some ["Math suite"]⟩]⟩]⟩)

def sampleConsole : List PytestLine :=
  [PytestLine.matched "test_app.py" "test_ok" .passedT none]

def sampleXmlCase : XmlTestcase :=
  ⟨"tests.test_app", "test_ok", .ok 1, none, none, none⟩

/-- A testcase whose `time` attribute is non-numeric, so
`float(testcase.get('time', 0))` raises ValueError mid-loop. -/
def badXmlCase : XmlTestcase :=
  ⟨"tests.test_app", "test_bad", .error (), none, none, none⟩

def sampleSummaryData : SummaryData :=
  ⟨"s1", "2025-01-01T00:00:00", true, 1, 1, 0, 0, 2, "pytest", "pytest -v"⟩

def sampleRun : TestRunResult :=
  ⟨true, 1, 1, 0, 0, [⟨"test_app.py", "test_ok", "passed", 0, none, "pytest", none⟩],
   1, "pytest -v", "1 passed", "pytest", "/tmp/proj", some "s1"⟩

/-! ### C1 -/

/-- C1 (counterexample): the jest parser does not map the framework status
token into the canonical set — a structured report whose assertion carries
status `pending` is emitted as a row whose status is the literal string
`pending`, which is outside {passed, failed, skipped, unknown}. -/
theorem parseTestResults_jest_noncanonical :
    ((parseTestResults (.jestI jestPendingInput)).map (fun r => r.status) = ["pending"]) ∧
    canonicalStatus "pending" = false := by
  constructor
  · rfl
  · rfl

/-- C1 (amended): every TestResult row emitted by the pytest (XML and
console), unittest, mocha, go, cargo and generic parsers has a status drawn
from the canonical set {passed, failed, skipped, unknown}; the jest parser
copies the artifact status string verbatim, so it is excluded. -/
theorem parsers_canonical_except_jest :
    (∀ cases', (parsePytestXml cases').all (fun r => canonicalStatus r.status) = true) ∧
    (∀ ls, (parsePytestOutput ls).all (fun r => canonicalStatus r.status) = true) ∧
    (∀ artifact console,
       (parsePytestResults artifact console).results.all
         (fun r => canonicalStatus r.status) = true) ∧
    (∀ ls, (parseUnittestResults ls).all (fun r => canonicalStatus r.status) = true) ∧
    (∀ ls, (parseMochaResults ls).all (fun r => canonicalStatus r.status) = true) ∧
    (∀ ls, (parseGoTestResults ls).all (fun r => canonicalStatus r.status) = true) ∧
    (∀ ls, (parseCargoTestResults ls).all (fun r => canonicalStatus r.status) = true) ∧
    (∀ m, (parseGenericResults m).all (fun r => canonicalStatus r.status) = true) :=
  ⟨allCanonical_parsePytestXml, allCanonical_parsePytestOutput,
   allCanonical_parsePytestResults, allCanonical_parseUnittestResults,
   allCanonical_parseMochaResults, allCanonical_parseGoTestResults,
   allCanonical_parseCargoTestResults, allCanonical_parseGenericResults⟩

/-! ### C2 -/

/-- C2: when the launched process has already exited at the end of the
2-second grace period, `_run_application` returns the captured stdout/stderr
with a null port, without entering port discovery or the secondary
collection window, and `validate_application` computes `success = false`
for that outcome (in particular, success would require a null error log,
which this path never produces). -/
theorem runApplication_exited_is_failure (ptype : String) (b : ProcBehavior)
    (hK : (["node", "python", "rust", "go"].contains ptype) = true)
    (hL : b.launchError = none)
    (hE : b.exitedDuringGrace = true) :
    runApplication ptype b = ⟨b.graceStdout, some b.graceStderr, none, false, false⟩ ∧
    validationSuccess (runApplication ptype b).port (runApplication ptype b).errorLog
      = false := by
  have hmem : ptype = "node" ∨ ptype = "python" ∨ ptype = "rust" ∨ ptype = "go" := by
    simpa using hK
  have h1 : runApplication ptype b = ⟨b.graceStdout, some b.graceStderr, none, false, false⟩ := by
    simp [runApplication, hK, hL, hE]
    all_goals (intros; rcases hmem with rfl | rfl | rfl | rfl <;> simp_all)
  exact ⟨h1, by simp [h1, validationSuccess]⟩

/-- C2 (witness): a python project whose process exits during the grace
period with output "out" and error "boom". -/
theorem runApplication_exited_is_failure_witness :
    runApplication "python" ⟨none, true, "out", "boom", none, none⟩ =
      ⟨"out", some "boom", none, false, false⟩ ∧
    validationSuccess
      (runApplication "python" ⟨none, true, "out", "boom", none, none⟩).port
      (runApplication "python" ⟨none, true, "out", "boom", none, none⟩).errorLog = false :=
  runApplication_exited_is_failure "python" ⟨none, true, "out", "boom", none, none⟩
    (by decide) rfl rfl

/-! ### C3 -/

/-- C3: a process still running when the 5-second collection window expires
produces the "Application started successfully" output with no error (a
success signal for `validate_application`), port discovery was attempted for
its pid, and the process is terminated before `_run_application` returns. -/
theorem runApplication_started_signal (ptype : String) (b : ProcBehavior)
    (hK : (["node", "python", "rust", "go"].contains ptype) = true)
    (hL : b.launchError = none)
    (hE : b.exitedDuringGrace = false)
    (hT : b.collected = none) :
    runApplication ptype b =
      ⟨"Application started successfully", none, b.portFound, true, true⟩ ∧
    validationSuccess (runApplication ptype b).port (runApplication ptype b).errorLog
      = true := by
  have hmem : ptype = "node" ∨ ptype = "python" ∨ ptype = "rust" ∨ ptype = "go" := by
    simpa using hK
  have h1 : runApplication ptype b =
      ⟨"Application started successfully", none, b.portFound, true, true⟩ := by
    simp [runApplication, hK, hL, hE, hT]
    all_goals (intros; rcases hmem with rfl | rfl | rfl | rfl <;> simp_all)
  exact ⟨h1, by simp [h1, validationSuccess]⟩

/-- C3 (witness): a node project whose process outlives the collection
window, with port 3000 discovered. -/
theorem runApplication_started_signal_witness :
    runApplication "node" ⟨none, false, "", "", some 3000, none⟩ =
      ⟨"Application started successfully", none, some 3000, true, true⟩ ∧
    validationSuccess
      (runApplication "node" ⟨none, false, "", "", some 3000, none⟩).port
      (runApplication "node" ⟨none, false, "", "", some 3000, none⟩).errorLog = true :=
  runApplication_started_signal "node" ⟨none, false, "", "", some 3000, none⟩
    (by decide) rfl rfl rfl

/-! ### C4 -/

/-- C4 (counterexample): 204 is a 2xx status, yet `_check_health` resolves it
to `false` — the source compares `resp.status == 200`, not 2xx membership. -/
theorem checkHealth_rejects_204 :
    (200 ≤ 204 ∧ 204 < 300) ∧ checkHealth (some 204) = false := by
  constructor
  · constructor <;> decide
  · rfl

/-- C4 (amended): `_check_health` returns true iff an HTTP response with
status exactly 200 is received within the timeout; every failure (connection
refused, timeout, any raise — all modelled as `none`) and every non-200
status resolves to false, never raising. -/
theorem checkHealth_iff_200 :
    ∀ resp : Option Nat, checkHealth resp = true ↔ resp = some 200 := by
  intro resp
  cases resp with
  | none => simp [checkHealth]
  | some status => simp [checkHealth]

/-! ### C5 -/

/-- C5: a reviewer response that is classified neither APPROVED nor
REVISION NEEDED is treated as revision-needed (approved = false with the
"Review unclear" feedback), and any exception raised while calling the
reviewer yields approved = true (fail-open auto-approval) instead of
propagating. -/
theorem reviewOutput_unclear_and_failopen :
    (∀ resp : String,
       substrIn ("APPROVED".toList) (upperList resp.toList) = false →
       substrIn ("REVISION NEEDED".toList) (upperList resp.toList) = false →
       reviewOutput (.ok resp) = (false, "Review unclear: " ++ resp)) ∧
    (∀ e : String,
       reviewOutput (.error e) = (true, "Auto-approved due to review error: " ++ e)) := by
  constructor
  · intro resp h1 h2
    simp only [reviewOutput, h1, h2, Bool.false_eq_true, if_false]
  · intro e
    rfl

/-- C5 (witness): a response with no verdict marker is not approved; a
raised exception is auto-approved. -/
theorem reviewOutput_unclear_and_failopen_witness :
    reviewOutput (.ok "no verdict here") = (false, "Review unclear: no verdict here") ∧
    reviewOutput (.error "boom") = (true, "Auto-approved due to review error: boom") :=
  ⟨reviewOutput_unclear_and_failopen.1 "no verdict here" (by decide) (by decide),
   reviewOutput_unclear_and_failopen.2 "boom"⟩

/-! ### C6 -/

/-- C6: every TestRunResult produced by `run_tests` — on the normal path and
on the exception path — has `total_tests` equal to the length of its
`test_results` sequence. -/
theorem runTests_totalTests_eq_length :
    ∀ (o : Except String (List TestResult)) fw cmd outLog path sid elapsed,
      (runTests o fw cmd outLog path sid elapsed).total_tests =
      (runTests o fw cmd outLog path sid elapsed).test_results.length := by
  intro o fw cmd outLog path sid elapsed
  cases o <;> rfl

/-! ### C10 -/

/-- C10: a TestRunResult returned by `run_tests` has `success = true` iff its
failed count is zero and its total is strictly positive; the exception path
returns zero totals and is therefore never a success. -/
theorem runTests_success_iff_noFailures_and_nonempty :
    ∀ (o : Except String (List TestResult)) fw cmd outLog path sid elapsed,
      (runTests o fw cmd outLog path sid elapsed).success = true ↔
      ((runTests o fw cmd outLog path sid elapsed).failed = 0 ∧
       0 < (runTests o fw cmd outLog path sid elapsed).total_tests) := by
  intro o fw cmd outLog path sid elapsed
  cases o with
  | ok results => simp [runTests]
  | error e => simp [runTests]

/-! ### C7 -/

/-- C7 (counterexample): a project containing only `index.js` is detected as
a node project, its manifest `package.json` is absent, yet
`_install_dependencies` executes `npm install` instead of skipping the
step — the manifest-presence check exists only for the python type. -/
theorem installDependencies_node_without_manifest :
    detectProjectType ["index.js"] = "node" ∧
    (["index.js"] : List String).contains "package.json" = false ∧
    installDependencies "node" ["index.js"] = .runCmd ["npm", "install"] := by
  refine ⟨rfl, rfl, rfl⟩

/-- C7 (amended): only the python project type checks for its manifest —
`pip install -r requirements.txt` is skipped exactly when `requirements.txt`
is absent; node, rust and go execute their canonical install command
regardless of manifest presence, and an unknown type yields the no-command
message. -/
theorem installDependencies_manifest_policy :
    (∀ files : List String,
       installDependencies "python" files =
         (if files.contains "requirements.txt" then
            .runCmd ["pip", "install", "-r", "requirements.txt"]
          else
            .skippedStep "No requirements.txt found, skipping dependency installation")) ∧
    (∀ files : List String, installDependencies "node" files = .runCmd ["npm", "install"]) ∧
    (∀ files : List String, installDependencies "rust" files = .runCmd ["cargo", "build"]) ∧
    (∀ files : List String, installDependencies "go" files = .runCmd ["go", "mod", "download"]) ∧
    (∀ files : List String,
       installDependencies "unknown" files =
         .noCommand "No install command for project type: unknown") := by
  have hl : installCommands.lookup "python" =
      some ["pip", "install", "-r", "requirements.txt"] := rfl
  refine ⟨?_, fun files => rfl, fun files => rfl, fun files => rfl, fun files => rfl⟩
  intro files
  cases h : files.contains "requirements.txt" <;>
    simp [installDependencies, hl, h] <;>
    simp_all

/-! ### C8 -/

/-- C8 (counterexample): when the JUnit XML artifact exists but fails to
parse, `_parse_pytest_results` does fall back to console parsing, but the
failure is swallowed by a bare `except: pass` — no log entry is emitted (and
the artifact is not removed), contradicting the claim that the failure is
logged. -/
theorem parsePytestResults_malformed_is_silent :
    (parsePytestResults (some .malformed) sampleConsole).logs = [] ∧
    (parsePytestResults (some .malformed) sampleConsole).results =
      parsePytestOutput sampleConsole ∧
    (parsePytestResults (some .malformed) sampleConsole).results ≠ [] ∧
    (parsePytestResults (some .malformed) sampleConsole).artifactRemoved = false := by
  refine ⟨rfl, rfl, ?_, rfl⟩
  decide

/-- C8 (amended): a parse failure on the existing JUnit XML artifact —
whether `ET.parse` itself fails or a ValueError aborts the extraction loop
mid-way — is caught silently (no log entry, artifact left in place); the
console fallback runs exactly when no XML row was appended, so a mid-loop
abort after at least one appended row keeps the partial XML rows with no
fallback and no removal; when extraction completes, the artifact is removed
and its rows are used (the fallback running only when it held zero
testcases). -/
theorem parsePytestResults_fallback :
    (∀ console, parsePytestResults (some .malformed) console =
       ⟨parsePytestOutput console, false, []⟩) ∧
    (∀ cases' console,
       (pytestXmlLoop cases').2 = false → (pytestXmlLoop cases').1 ≠ [] →
       parsePytestResults (some (.parsed cases')) console =
         ⟨(pytestXmlLoop cases').1, false, []⟩) ∧
    (∀ cases' console,
       (pytestXmlLoop cases').2 = false → (pytestXmlLoop cases').1 = [] →
       parsePytestResults (some (.parsed cases')) console =
         ⟨parsePytestOutput console, false, []⟩) ∧
    (∀ cases' console,
       (pytestXmlLoop cases').2 = true → (pytestXmlLoop cases').1 ≠ [] →
       parsePytestResults (some (.parsed cases')) console =
         ⟨(pytestXmlLoop cases').1, true, []⟩) ∧
    (∀ cases' console,
       (pytestXmlLoop cases').2 = true → (pytestXmlLoop cases').1 = [] →
       parsePytestResults (some (.parsed cases')) console =
         ⟨parsePytestOutput console, true, []⟩) := by
  refine ⟨fun console => rfl, ?_, ?_, ?_, ?_⟩
  · intro cases' console h1 h2
    have hne : (pytestXmlLoop cases').1.isEmpty = false := by
      cases hl : (pytestXmlLoop cases').1 with
      | nil => exact absurd hl h2
      | cons a t => rfl
    simp [parsePytestResults, hne, h1]
  · intro cases' console h1 h2
    have hem : (pytestXmlLoop cases').1.isEmpty = true := by rw [h2]; rfl
    simp [parsePytestResults, hem, h1]
  · intro cases' console h1 h2
    have hne : (pytestXmlLoop cases').1.isEmpty = false := by
      cases hl : (pytestXmlLoop cases').1 with
      | nil => exact absurd hl h2
      | cons a t => rfl
    simp [parsePytestResults, hne, h1]
  · intro cases' console h1 h2
    have hem : (pytestXmlLoop cases').1.isEmpty = true := by rw [h2]; rfl
    simp [parsePytestResults, hem, h1]

/-- C8 (witness): a good testcase followed by one with a non-numeric time
keeps the partial row with no fallback and no removal; a lone bad testcase
falls back with no removal; a lone good testcase is used and removed; an
artifact with zero testcases is removed and falls back. -/
theorem parsePytestResults_fallback_witness :
    parsePytestResults (some (.parsed [sampleXmlCase, badXmlCase])) sampleConsole =
      ⟨(pytestXmlLoop [sampleXmlCase, badXmlCase]).1, false, []⟩ ∧
    parsePytestResults (some (.parsed [badXmlCase])) sampleConsole =
      ⟨parsePytestOutput sampleConsole, false, []⟩ ∧
    parsePytestResults (some (.parsed [sampleXmlCase])) sampleConsole =
      ⟨(pytestXmlLoop [sampleXmlCase]).1, true, []⟩ ∧
    parsePytestResults (some (.parsed ([] : List XmlTestcase))) sampleConsole =
      ⟨parsePytestOutput sampleConsole, true, []⟩ :=
  ⟨parsePytestResults_fallback.2.1 [sampleXmlCase, badXmlCase] sampleConsole rfl (by decide),
   parsePytestResults_fallback.2.2.1 [badXmlCase] sampleConsole rfl rfl,
   parsePytestResults_fallback.2.2.2.1 [sampleXmlCase] sampleConsole rfl (by decide),
   parsePytestResults_fallback.2.2.2.2 [] sampleConsole rfl rfl⟩

/-! ### C9 -/

/-- C9 (counterexample): `generate_summary_csv` opens the summary CSV in
write mode — rerunning it over a directory whose JSON reports are gone
truncates the file, dropping the previously written data row and rewriting
the header, so the summary file does not accumulate without clobbering and
its header is not written exactly once on first creation. -/
theorem generateSummaryCsv_clobbers :
    (generateSummaryCsv
        ⟨some [SummaryRow.header, summaryRow sampleSummaryData], none⟩ []).summaryFile
      = some [SummaryRow.header] ∧
    summaryRow sampleSummaryData ∉ [SummaryRow.header] := by
  refine ⟨rfl, ?_⟩
  decide

/-- C9 (amended): the history CSV accumulates across runs without
clobbering — every append preserves the existing rows as a prefix and the
header row is written exactly once, on first creation of the file; the
summary CSV, in contrast, is rewritten from scratch on every call, with the
header written anew followed by one row per currently readable JSON
report. -/
theorem historyAccumulates_summaryRewrites :
    (∀ (fs : ReportDir) (now : String) (r : TestRunResult) rows,
       fs.historyFile = some rows →
       (appendToHistoryCsv fs now r).historyFile = some (rows ++ [historyDataRow now r])) ∧
    (∀ (fs : ReportDir) (now : String) (r : TestRunResult),
       fs.historyFile = none →
       (appendToHistoryCsv fs now r).historyFile =
         some [HistoryRow.header, historyDataRow now r]) ∧
    (∀ (fs : ReportDir) reports,
       (generateSummaryCsv fs reports).summaryFile =
         some (SummaryRow.header :: summaryRows reports)) := by
  refine ⟨?_, ?_, fun fs reports => rfl⟩
  · intro fs now r rows h
    simp [appendToHistoryCsv, h]
  · intro fs now r h
    simp [appendToHistoryCsv, h]

/-- C9 (witness): appending to an existing history file preserves its rows;
appending with no file present writes the header exactly once. -/
theorem historyAccumulates_witness :
    (appendToHistoryCsv ⟨none, some [HistoryRow.header]⟩ "t0" sampleRun).historyFile
      = some ([HistoryRow.header] ++ [historyDataRow "t0" sampleRun]) ∧
    (appendToHistoryCsv ⟨none, none⟩ "t0" sampleRun).historyFile
      = some [HistoryRow.header, historyDataRow "t0" sampleRun] :=
  ⟨historyAccumulates_summaryRewrites.1 ⟨none, some [HistoryRow.header]⟩ "t0" sampleRun
     [HistoryRow.header] rfl,
   historyAccumulates_summaryRewrites.2.1 ⟨none, none⟩ "t0" sampleRun rfl⟩

end ACP
